import Mathlib

/-!
Shallow embedding of `src/ros/src/tl_detector/tl_detector.py` (the traffic
light detection and debounce pipeline of CarND-Capstone).

Conventions of the embedding:
* Coordinates and time stamps are rationals (`ℚ`); Python float literals such
  as `0.1`, `1e6`, `16.2` become the exact rationals `1/10`, `10^6`, `81/5`.
* The source compares Euclidean distances `(dx**2+dy**2)**0.5` against
  non-negative thresholds; the embedding compares the squared distance against
  the squared threshold, which preserves every such comparison exactly.
* Traffic light colors are the integer codes of `styx_msgs/TrafficLight`:
  RED = 0, YELLOW = 1, GREEN = 2, UNKNOWN = 4.
* Yaw extraction (`tf.transformations.euler_from_quaternion` followed by
  `math.cos` / `math.sin`) is an external library concern; a car pose carries
  the position `(x, y)` together with the heading components `hx = cos θ`,
  `hy = sin θ` directly.
* The external classifier `TLClassifier.get_classification` is opaque; an
  accepted frame carries its result as `Except Unit Nat` (`.error` models the
  classifier raising).
* Python control-flow faults are explicit values of `PyErr`: unpacking the
  bare `return` of `process_traffic_lights` raises `TypeError`, reading
  `self.pose.pose` while `pose is None` raises `AttributeError`, and reading
  the loop variable `ind` (or `light_stop_wp`) before any assignment raises
  `UnboundLocalError`.
-/

namespace TLDetector

/-- Color codes of `styx_msgs/TrafficLight`. -/
def RED : Nat := 0

/-- Color code YELLOW of `styx_msgs/TrafficLight`. -/
def YELLOW : Nat := 1

/-- Color code GREEN of `styx_msgs/TrafficLight`. -/
def GREEN : Nat := 2

/-- Color code UNKNOWN of `styx_msgs/TrafficLight`; also the "no light found"
color returned by `process_traffic_lights`. -/
def UNKNOWN : Nat := 4

/-- `STATE_COUNT_THRESHOLD = 3` (tl_detector.py line 16). -/
def STATE_COUNT_THRESHOLD : Nat := 3

/-- A 2-D position (`pose.position.x`, `pose.position.y`). -/
structure Point where
  x : ℚ
  y : ℚ
  deriving DecidableEq, Repr

/-- Debounce state of the detector: the fields `state`, `last_state`,
`last_wp`, `state_count` set in `TLDetector.__init__` (lines 34-38). -/
structure DetectState where
  state : Nat
  last_state : Nat
  last_wp : Int
  state_count : Nat
  deriving DecidableEq, Repr

/-- Initial debounce state from `__init__`: `state = UNKNOWN`,
`last_state = UNKNOWN`, `last_wp = -1`, `state_count = 0`. -/
def initDetectState : DetectState :=
  { state := UNKNOWN, last_state := UNKNOWN, last_wp := -1, state_count := 0 }

/-- The branch of the debounce logic in `image_cb` (lines 111-124), before the
final unconditional `self.state_count += 1`.  Returns the updated state and
the value published this frame (`none` when branch 1 publishes nothing). -/
def debounce_branch (s : DetectState) (light_wp : Int) (raw : Nat) :
    DetectState × Option Int :=
  if s.state ≠ raw then
    ({ s with state_count := 0, state := raw }, none)
  else if s.state_count ≥ STATE_COUNT_THRESHOLD then
    let s1 := if s.state ≠ s.last_state then { s with last_state := s.state } else s
    let wp := if raw = RED then light_wp else -1
    ({ s1 with last_wp := wp }, some wp)
  else
    (s, some s.last_wp)

/-- One accepted frame through the debounce logic of `image_cb`
(lines 111-125): the three-way branch followed by `self.state_count += 1`. -/
def debounce_step (s : DetectState) (light_wp : Int) (raw : Nat) :
    DetectState × Option Int :=
  let r := debounce_branch s light_wp raw
  ({ r.1 with state_count := r.1.state_count + 1 }, r.2)

/-- Run the debounce engine over a list of raw `(color, waypoint)` frames,
returning the final state. -/
def runDetect (s : DetectState) : List (Nat × Int) → DetectState
  | [] => s
  | f :: fs => runDetect (debounce_step s f.2 f.1).1 fs

/-- Outputs emitted (as `Option Int`, `none` = no publish) for each frame of a
run of the debounce engine. -/
def runOuts (s : DetectState) : List (Nat × Int) → List (Option Int)
  | [] => []
  | f :: fs => (debounce_step s f.2 f.1).2 :: runOuts (debounce_step s f.2 f.1).1 fs

/-- The scan loop of `get_closest_waypoint` (lines 137-152): `diff_x` and
`diff_y` start at `1e6`; a waypoint becomes the candidate `ind` only when both
per-axis absolute differences strictly improve simultaneously.  `ind` is
`none` while the Python local variable is still unassigned. -/
def closestScan (pose : Point) :
    List Point → Nat → ℚ → ℚ → Option Nat → Option Nat
  | [], _, _, _, ind => ind
  | w :: ws, i, diff_x, diff_y, ind =>
    let x := |pose.x - w.x|
    let y := |pose.y - w.y|
    if x < diff_x ∧ y < diff_y then
      closestScan pose ws (i + 1) x y (some i)
    else
      closestScan pose ws (i + 1) diff_x diff_y ind

/-- The scan of `get_closest_waypoint` over a stored waypoint list; `none`
models the `UnboundLocalError` raised by `return ind` when no waypoint ever
satisfied the improvement test. -/
def closestIdx (wps : List Point) (pose : Point) : Option Nat :=
  closestScan pose wps 0 (10 ^ 6) (10 ^ 6) none

/-- Result of `get_closest_waypoint`: the bare `return` when no path is
stored, an index, or the `UnboundLocalError` on `return ind`. -/
inductive WpResult where
  | noPath
  | index (i : Nat)
  | unboundLocal
  deriving DecidableEq, Repr

/-- `get_closest_waypoint` (lines 127-154). -/
def get_closest_waypoint (waypoints : Option (List Point)) (pose : Point) :
    WpResult :=
  match waypoints with
  | none => .noPath
  | some wps =>
    match closestIdx wps pose with
    | some i => .index i
    | none => .unboundLocal

/-- Vehicle pose: position `(x, y)` with heading components `hx = cos θ`,
`hy = sin θ`, abstracting the quaternion-to-yaw extraction of lines 196-201
(`x_in_front = x + 1*cos θ`, `y_in_front = y + 1*sin θ`). -/
structure CarPose where
  x : ℚ
  y : ℚ
  hx : ℚ
  hy : ℚ
  deriving DecidableEq, Repr

/-- The per-light test of `process_traffic_lights` (lines 208-222):
`light_distance < 100 and light_distance > 25` (embedded on squared
distances) and `car_orient * light_orient > 1`, with
`car_orient = x_in_front - x + y_in_front - y = hx + hy` and
`light_orient = light_x - x + light_y - y`. -/
def lightQualifies (p : CarPose) (l : Point) : Bool :=
  let dsq := (l.x - p.x) ^ 2 + (l.y - p.y) ^ 2
  decide (dsq < 100 ^ 2) && decide (dsq > 25 ^ 2) &&
    decide ((p.hx + p.hy) * (l.x - p.x + (l.y - p.y)) > 1)

/-- The `for light in self.lights` loop (lines 207-240): first qualifying
light wins and the scan `break`s. -/
def findLight (p : CarPose) : List Point → Option Point
  | [] => none
  | l :: ls => if lightQualifies p l then some l else findLight p ls

/-- The stop-line loop (lines 227-236): minimum distance starts at `1e6`
(squared here), the best pose starts at the default `Pose()` origin. -/
def nearestStopLine (lx ly : ℚ) : List Point → ℚ → Point → Point
  | [], _, best => best
  | sl :: sls, minDsq, best =>
    let dsq := (lx - sl.x) ^ 2 + (ly - sl.y) ^ 2
    if dsq < minDsq then nearestStopLine lx ly sls dsq sl
    else nearestStopLine lx ly sls minDsq best

/-- Python faults that can escape the frame handler: `TypeError` from
unpacking the bare `return` of `process_traffic_lights`, `AttributeError`
from `self.pose.pose` while `pose is None`, `UnboundLocalError` from reading
`ind` unassigned, and an exception raised inside the external classifier. -/
inductive PyErr where
  | typeError
  | attributeError
  | unboundLocal
  | classifierError
  deriving DecidableEq, Repr

/-- `process_traffic_lights` (lines 180-254), for one accepted frame.
`classify` is the opaque classifier's outcome for the current camera image
(`get_light_state`, line 178; `.error` = the classifier raised).  Result
`.ok none` is the bare `return` of line 192; `.ok (some (wp, color))` is the
pair returned on lines 252/254. -/
def process_traffic_lights (site : Bool) (stop_lines : List Point)
    (waypoints : Option (List Point)) (pose : Option CarPose)
    (lights : List Point) (classify : Except Unit Nat) :
    Except PyErr (Option (Int × Nat)) :=
  match waypoints with
  | none => .ok none
  | some wps =>
    if site = false then
      match pose with
      | none => .error .attributeError
      | some p =>
        match findLight p lights with
        | none => .ok (some (-1, UNKNOWN))
        | some l =>
          match classify with
          | .error _ => .error .classifierError
          | .ok pred_state =>
            let stopP := nearestStopLine l.x l.y stop_lines ((10 ^ 6) ^ 2) ⟨0, 0⟩
            match closestIdx wps stopP with
            | some i => .ok (some ((i : Int), pred_state))
            | none => .error .unboundLocal
    else
      let stopP : Point := ⟨8, 81 / 5⟩
      match closestIdx wps stopP with
      | some i =>
        match classify with
        | .error _ => .error .classifierError
        | .ok pred_state => .ok (some ((i : Int), pred_state))
      | none => .error .unboundLocal

/-- Full mutable state of the `TLDetector` node (fields of `__init__`,
lines 22-64, restricted to those this pipeline reads or writes).
`has_image` starts `false`, modelling the attribute being absent until the
first accepted frame sets it; its only reader runs after that assignment. -/
structure TLState where
  pose : Option CarPose
  waypoints : Option (List Point)
  got_waypoints : Bool
  lights : List Point
  last_image_time : ℚ
  processing_image : Bool
  has_image : Bool
  ds : DetectState
  site : Bool
  stop_line_positions : List Point
  deriving Repr

/-- Fresh node state after `__init__`: no pose, no waypoints, no lights,
`processing_image = False`, `last_image_time = rospy.get_time() = t0`,
debounce fields as in `initDetectState`; `site` and the stop-line table come
from the configuration. -/
def initState (site : Bool) (stop_lines : List Point) (t0 : ℚ) : TLState :=
  { pose := none
    waypoints := none
    got_waypoints := false
    lights := []
    last_image_time := t0
    processing_image := false
    has_image := false
    ds := initDetectState
    site := site
    stop_line_positions := stop_lines }

/-- `image_cb` (lines 81-125) for a frame arriving at time `now`: the frame
is accepted only when `processing_image == False` and
`now > last_image_time + 0.1`; otherwise nothing happens.  Returns the new
state, the value published this frame (if any), and the Python fault that
escaped the handler (if any); on a fault the assignments already executed
(`last_image_time`, `has_image`) remain in effect. -/
def image_cb (s : TLState) (now : ℚ) (classify : Except Unit Nat) :
    TLState × Option Int × Option PyErr :=
  if s.processing_image = false ∧ s.last_image_time + 1 / 10 < now then
    let s1 := { s with last_image_time := now, has_image := true }
    match process_traffic_lights s1.site s1.stop_line_positions s1.waypoints
        s1.pose s1.lights classify with
    | .error e => (s1, none, some e)
    | .ok none => (s1, none, some .typeError)
    | .ok (some (light_wp, raw)) =>
      let r := debounce_step s1.ds light_wp raw
      ({ s1 with ds := r.1 }, r.2, none)
  else (s, none, none)

/-- `pose_cb` (lines 70-71): the latest pose overwrites the store. -/
def pose_cb (s : TLState) (p : CarPose) : TLState :=
  { s with pose := some p }

/-- `waypoints_cb` (lines 73-76): only the first message is honored. -/
def waypoints_cb (s : TLState) (wps : List Point) : TLState :=
  if s.got_waypoints = false then
    { s with waypoints := some wps, got_waypoints := true }
  else s

/-- `traffic_cb` (lines 78-79): the light snapshot is replaced wholesale. -/
def traffic_cb (s : TLState) (lights : List Point) : TLState :=
  { s with lights := lights }

/-- One inbound message: a pose, a path, a light snapshot, or a camera frame
with its arrival time and the classifier's outcome on it. -/
inductive Msg where
  | poseMsg (p : CarPose)
  | waypointsMsg (wps : List Point)
  | trafficMsg (lights : List Point)
  | imageMsg (t : ℚ) (classify : Except Unit Nat)

/-- Dispatch one message to its callback.  Non-image callbacks publish
nothing and raise nothing. -/
def handle (s : TLState) : Msg → TLState × Option Int × Option PyErr
  | .poseMsg p => (pose_cb s p, none, none)
  | .waypointsMsg w => (waypoints_cb s w, none, none)
  | .trafficMsg l => (traffic_cb s l, none, none)
  | .imageMsg t c => image_cb s t c

/-- Run the node over a message sequence, recording for each message what was
published and what fault (if any) escaped the handler (rospy logs callback
exceptions and keeps delivering, so the run continues). -/
def runMsgs (s : TLState) : List Msg → List (Option Int × Option PyErr)
  | [] => []
  | m :: ms => (handle s m).2 :: runMsgs (handle s m).1 ms

/-- The sequence of values actually published on `/traffic_waypoint` during a
run. -/
def published (s : TLState) (ms : List Msg) : List Int :=
  (runMsgs s ms).filterMap (·.1)

/-- Last published value of an output trace, `d` when nothing was published
(`d = -1` matches the initial `last_wp`). -/
def lastPubD (d : Int) : List (Option Int) → Int
  | [] => d
  | none :: outs => lastPubD d outs
  | some v :: outs => lastPubD v outs

/-- Does branch 2 of the debounce logic fire on this frame (raw color equal
to the tracked raw state and the counter at or above the threshold)? -/
def branch2Fires (s : DetectState) (raw : Nat) : Bool :=
  s.state == raw && decide (STATE_COUNT_THRESHOLD ≤ s.state_count)

/-- Does branch 2 fire at any frame of the run? -/
def anyBranch2 (s : DetectState) : List (Nat × Int) → Bool
  | [] => false
  | f :: fs => branch2Fires s f.1 || anyBranch2 (debounce_step s f.2 f.1).1 fs

/-- Modelled from the spec (claim C6 reading of §4.4): a frame is accepted
when the busy flag is false and at least (non-strictly) 0.1 time units have
elapsed since the last accepted frame. -/
def spec_accepts (s : TLState) (now : ℚ) : Prop :=
  s.processing_image = false ∧ s.last_image_time + 1 / 10 ≤ now

/-- Modelled from the spec (claim C8 reading of §4.2): light qualification
with the distance constraint as the closed interval `[25, 100]`. -/
def lightQualifiesClosed (p : CarPose) (l : Point) : Bool :=
  let dsq := (l.x - p.x) ^ 2 + (l.y - p.y) ^ 2
  decide (dsq ≤ 100 ^ 2) && decide (dsq ≥ 25 ^ 2) &&
    decide ((p.hx + p.hy) * (l.x - p.x + (l.y - p.y)) > 1)

instance : Decidable (spec_accepts s now) := by
  unfold spec_accepts; infer_instance

/-! ## Helper lemmas about the debounce step -/

theorem debounce_step_change (s : DetectState) (wp : Int) (raw : Nat)
    (h : s.state ≠ raw) :
    debounce_step s wp raw = ({ s with state := raw, state_count := 1 }, none) := by
  simp [debounce_step, debounce_branch, h]

theorem debounce_step_stable (s : DetectState) (wp : Int) (raw : Nat)
    (h : s.state = raw) (h3 : 3 ≤ s.state_count) :
    debounce_step s wp raw =
      ({ s with
          last_state := s.state
          last_wp := (if raw = RED then wp else -1)
          state_count := s.state_count + 1 },
        some (if raw = RED then wp else -1)) := by
  have hb : ¬ s.state ≠ raw := by simp [h]
  simp only [debounce_step, debounce_branch, STATE_COUNT_THRESHOLD, hb,
    if_false, ge_iff_le, h3, if_true, ite_false, ite_true]
  by_cases hls : s.state ≠ s.last_state
  · simp [hls]
  · push_neg at hls
    simp [hls]

theorem debounce_step_hold (s : DetectState) (wp : Int) (raw : Nat)
    (h : s.state = raw) (h3 : s.state_count < 3) :
    debounce_step s wp raw =
      ({ s with state_count := s.state_count + 1 }, some s.last_wp) := by
  have hb : ¬ s.state ≠ raw := by simp [h]
  have h3' : ¬ 3 ≤ s.state_count := by omega
  simp [debounce_step, debounce_branch, STATE_COUNT_THRESHOLD, hb, h3']

theorem runDetect_append (s : DetectState) (xs ys : List (Nat × Int)) :
    runDetect s (xs ++ ys) = runDetect (runDetect s xs) ys := by
  induction xs generalizing s with
  | nil => rfl
  | cons f fs ih => simp [runDetect, ih]

theorem runOuts_append (s : DetectState) (xs ys : List (Nat × Int)) :
    runOuts s (xs ++ ys) = runOuts s xs ++ runOuts (runDetect s xs) ys := by
  induction xs generalizing s with
  | nil => rfl
  | cons f fs ih => simp [runOuts, runDetect, ih]

/-- The last published value of a run equals the engine's `last_wp` field:
branch 1 publishes nothing and leaves `last_wp` alone, branch 2 publishes the
value it stores into `last_wp`, branch 3 publishes `last_wp` unchanged. -/
theorem lastPubD_runOuts (rs : List (Nat × Int)) :
    ∀ s : DetectState, lastPubD s.last_wp (runOuts s rs) = (runDetect s rs).last_wp := by
  induction rs with
  | nil => intro s; rfl
  | cons f fs ih =>
    intro s
    by_cases h : s.state = f.1
    · by_cases h3 : 3 ≤ s.state_count
      · rw [runOuts, runDetect, debounce_step_stable s f.2 f.1 h h3]
        exact ih { s with
          last_state := s.state
          last_wp := (if f.1 = RED then f.2 else -1)
          state_count := s.state_count + 1 }
      · rw [runOuts, runDetect, debounce_step_hold s f.2 f.1 h (by omega)]
        exact ih { s with state_count := s.state_count + 1 }
    · rw [runOuts, runDetect, debounce_step_change s f.2 f.1 h]
      exact ih { s with state := f.1, state_count := 1 }

/-- Counter soundness: along any run from the fresh state, `state_count` never
exceeds the number of frames seen, and the last `state_count` raw readings all
carry the currently tracked raw color. -/
theorem runDetect_trailing (rs : List (Nat × Int)) :
    (runDetect initDetectState rs).state_count ≤ rs.length ∧
    ((rs.reverse.take (runDetect initDetectState rs).state_count).all
      (fun g => g.1 == (runDetect initDetectState rs).state)) = true := by
  induction rs using List.reverseRecOn with
  | nil => exact ⟨Nat.le_refl 0, rfl⟩
  | append_singleton xs f ih =>
    obtain ⟨ihlen, ihall⟩ := ih
    have hrun : runDetect initDetectState (xs ++ [f]) =
        (debounce_step (runDetect initDetectState xs) f.2 f.1).1 := by
      rw [runDetect_append]; rfl
    have hrev : (xs ++ [f]).reverse = f :: xs.reverse := by
      simp
    by_cases h : (runDetect initDetectState xs).state = f.1
    · by_cases h3 : 3 ≤ (runDetect initDetectState xs).state_count
      · rw [hrun, debounce_step_stable _ f.2 f.1 h h3, hrev]
        constructor
        · simpa using Nat.add_le_add_right ihlen 1
        · simp only [List.take_succ_cons, List.all_cons, Bool.and_eq_true]
          exact And.intro (by simp [h]) ihall
      · rw [hrun, debounce_step_hold _ f.2 f.1 h (by omega), hrev]
        constructor
        · simpa using Nat.add_le_add_right ihlen 1
        · simp only [List.take_succ_cons, List.all_cons, Bool.and_eq_true]
          exact And.intro (by simp [h]) ihall
    · rw [hrun, debounce_step_change _ f.2 f.1 h, hrev]
      constructor
      · simp
      · simp

/-- A frame can only publish a value different from the current `last_wp`
through branch 2, i.e. when its raw color matches the tracked raw state and
the counter has reached the threshold. -/
theorem debounce_step_pub_change (s : DetectState) (wp : Int) (raw : Nat)
    (v : Int) (hout : (debounce_step s wp raw).2 = some v)
    (hne : v ≠ s.last_wp) : s.state = raw ∧ 3 ≤ s.state_count := by
  by_cases h : s.state = raw
  · by_cases h3 : 3 ≤ s.state_count
    · exact ⟨h, h3⟩
    · rw [debounce_step_hold s wp raw h (by omega)] at hout
      exact absurd (Option.some.inj hout).symm hne
  · rw [debounce_step_change s wp raw h] at hout
    exact absurd hout (by simp)

/-- Once the scan's candidate variable holds an index, it never becomes
unassigned again. -/
theorem closestScan_ne_none (ws : List Point) (pose : Point) :
    ∀ i dx dy k, closestScan pose ws i dx dy (some k) ≠ none := by
  induction ws with
  | nil => intro i dx dy k h; exact Option.noConfusion h
  | cons w ws ih =>
    intro i dx dy k
    simp only [closestScan]
    by_cases hc : |pose.x - w.x| < dx ∧ |pose.y - w.y| < dy
    · rw [if_pos hc]; exact ih (i + 1) _ _ i
    · rw [if_neg hc]; exact ih (i + 1) dx dy k

/-- Any index the scan returns is below the running position plus the number
of remaining waypoints. -/
theorem closestScan_lt (ws : List Point) (pose : Point) :
    ∀ i dx dy ind j, (∀ k, ind = some k → k < i) →
      closestScan pose ws i dx dy ind = some j → j < i + ws.length := by
  induction ws with
  | nil =>
    intro i dx dy ind j hind h
    simpa using hind j h
  | cons w ws ih =>
    intro i dx dy ind j hind h
    simp only [closestScan] at h
    by_cases hc : |pose.x - w.x| < dx ∧ |pose.y - w.y| < dy
    · rw [if_pos hc] at h
      have := ih (i + 1) _ _ (some i) j (fun k hk => by
        cases hk; omega) h
      simp only [List.length_cons]
      omega
    · rw [if_neg hc] at h
      have := ih (i + 1) dx dy ind j (fun k hk => Nat.lt_succ_of_lt (hind k hk)) h
      simp only [List.length_cons]
      omega

/-- If some remaining waypoint is within `1e6` of the query on both axes, the
scan cannot end with the candidate unassigned: the running bests only shrink
from `1e6`, and they are strictly below `1e6` as soon as a candidate exists. -/
theorem closestScan_hit (ws : List Point) (pose : Point) :
    ∀ i dx dy ind, dx ≤ 10 ^ 6 → dy ≤ 10 ^ 6 →
      (ind = none → dx = 10 ^ 6 ∧ dy = 10 ^ 6) →
      (∃ w ∈ ws, |pose.x - w.x| < 10 ^ 6 ∧ |pose.y - w.y| < 10 ^ 6) →
      closestScan pose ws i dx dy ind ≠ none := by
  induction ws with
  | nil => intro i dx dy ind _ _ _ hex; simp at hex
  | cons w ws ih =>
    intro i dx dy ind hdx hdy hind hex
    simp only [closestScan]
    by_cases hc : |pose.x - w.x| < dx ∧ |pose.y - w.y| < dy
    · rw [if_pos hc]
      exact closestScan_ne_none ws pose (i + 1) _ _ i
    · rw [if_neg hc]
      obtain ⟨w0, hw0mem, hw0x, hw0y⟩ := hex
      rcases List.mem_cons.mp hw0mem with hw | hmem
      · subst hw
        cases hi : ind with
        | some k => exact closestScan_ne_none ws pose (i + 1) dx dy k
        | none =>
          obtain ⟨hdx6, hdy6⟩ := hind hi
          exact absurd ⟨hdx6 ▸ hw0x, hdy6 ▸ hw0y⟩ hc
      · exact ih (i + 1) dx dy ind hdx hdy hind ⟨w0, hmem, hw0x, hw0y⟩

/-- The first-match structure of the light scan: a found light qualifies and
every light before it in received order does not. -/
theorem findLight_first (p : CarPose) (lights : List Point) :
    ∀ l, findLight p lights = some l →
      lightQualifies p l = true ∧
      ∃ pre post, lights = pre ++ l :: post ∧
        ∀ q ∈ pre, lightQualifies p q = false := by
  induction lights with
  | nil => intro l h; exact Option.noConfusion h
  | cons a ls ih =>
    intro l h
    rw [findLight] at h
    by_cases hq : lightQualifies p a = true
    · rw [if_pos hq] at h
      cases h
      exact ⟨hq, [], ls, rfl, by simp⟩
    · rw [if_neg hq] at h
      obtain ⟨hqual, pre, post, heq, hall⟩ := ih l h
      refine ⟨hqual, a :: pre, post, by rw [heq]; rfl, ?_⟩
      intro q hmem
      rcases List.mem_cons.mp hmem with hqa | hqpre
      · subst hqa; exact Bool.not_eq_true _ ▸ (by simpa using hq)
      · exact hall q hqpre

/-! ## Claim theorems -/

/-- C1: the claim says that with no path stored, or (non-site) no pose yet,
an accepted frame reports "no light found" and completes without raising.
The code instead faults: `process_traffic_lights` bare-returns `None` when
`self.waypoints is None`, which the caller unpacks (`TypeError`), and with a
path but no pose it dereferences `self.pose.pose` (`AttributeError`); nothing
is published either way.  This theorem evaluates the code at both failing
inputs. -/
theorem C1_missing_input_faults :
    (image_cb (initState false [] 0) 1 (.ok RED)).2.2 = some .typeError ∧
    (image_cb (initState false [] 0) 1 (.ok RED)).2.1 = none ∧
    (image_cb { initState false [] 0 with
        waypoints := some [⟨0, 0⟩], got_waypoints := true } 1
      (.ok RED)).2.2 = some .attributeError ∧
    (image_cb { initState false [] 0 with
        waypoints := some [⟨0, 0⟩], got_waypoints := true } 1
      (.ok RED)).2.1 = none ∧
    process_traffic_lights false [] none none [] (.ok RED) = .ok none := by
  refine ⟨?_, ?_, ?_, ?_, rfl⟩ <;>
    norm_num [image_cb, initState, process_traffic_lights]

/-- C2: (general part) starting fresh, a frame whose published value differs
from the previously published one (default `-1`) can only occur after the
three preceding raw readings already carried this frame's raw color, i.e.
after `STABLE = 3` consecutive identical raw readings; (scenario part) on
`[RED, GREEN, RED, RED, RED, RED]` with waypoint 42 the single `GREEN` frame
resets the counter to 0 and `42` is first published on the final frame, after
three further `RED` frames beyond the reset. -/
theorem C2_no_early_flip :
    (∀ pre : List (Nat × Int), ∀ f : Nat × Int, ∀ v : Int,
      (debounce_step (runDetect initDetectState pre) f.2 f.1).2 = some v →
      v ≠ lastPubD (-1) (runOuts initDetectState pre) →
      3 ≤ pre.length ∧
        ((pre.reverse.take 3).all (fun g => g.1 == f.1)) = true) ∧
    runOuts initDetectState
        [(RED, 42), (GREEN, 42), (RED, 42), (RED, 42), (RED, 42), (RED, 42)] =
      [none, none, none, some (-1), some (-1), some 42] ∧
    (debounce_branch (runDetect initDetectState [(RED, 42)]) 42 GREEN).1.state_count
      = 0 := by
  refine ⟨?_, by decide, by decide⟩
  intro pre f v hout hne
  have hlp : lastPubD (-1) (runOuts initDetectState pre) =
      (runDetect initDetectState pre).last_wp := lastPubD_runOuts pre initDetectState
  rw [hlp] at hne
  obtain ⟨hst, h3⟩ := debounce_step_pub_change _ _ _ _ hout hne
  obtain ⟨hlen, hall⟩ := runDetect_trailing pre
  refine ⟨le_trans h3 hlen, ?_⟩
  rw [List.all_eq_true]
  intro g hg
  have hg3 : g ∈ pre.reverse.take ((runDetect initDetectState pre).state_count) := by
    have : pre.reverse.take 3 =
        (pre.reverse.take ((runDetect initDetectState pre).state_count)).take 3 := by
      rw [List.take_take, min_eq_left h3]
    exact List.take_subset 3 _ (this ▸ hg)
  have := List.all_eq_true.mp hall g hg3
  simpa [← hst] using this

/-- Witness for C2: after three consecutive `RED` frames the fourth publishes
`42`, which differs from the prior published default `-1`, and indeed the three
preceding readings were all `RED`. -/
theorem C2_no_early_flip_witness :
    (debounce_step (runDetect initDetectState [(RED, 42), (RED, 42), (RED, 42)])
        (42 : Int) RED).2 = some 42 ∧
    (42 : Int) ≠ lastPubD (-1)
      (runOuts initDetectState [(RED, 42), (RED, 42), (RED, 42)]) ∧
    3 ≤ ([((RED : Nat), (42 : Int)), (RED, 42), (RED, 42)]).length ∧
    (([((RED : Nat), (42 : Int)), (RED, 42), (RED, 42)].reverse.take 3).all
      (fun g => g.1 == RED)) = true := by
  refine ⟨by decide, by decide, ?_, ?_⟩
  · exact (C2_no_early_flip.1 [(RED, 42), (RED, 42), (RED, 42)] (RED, 42) 42
      (by decide) (by decide)).1
  · exact (C2_no_early_flip.1 [(RED, 42), (RED, 42), (RED, 42)] (RED, 42) 42
      (by decide) (by decide)).2

/-- C3: from a fresh `DetectState`, raw frames `RED` with waypoint 42 produce
no publish on frame 1 (branch 1), republish of the previous stable value `-1`
on frames 2-3 (branch 3), and publish of `42` from frame 4 onward (branch 2);
the counter is incremented unconditionally after the branch. -/
theorem C3_red_run_trace :
    runOuts initDetectState (List.replicate 6 (RED, (42 : Int))) =
      [none, some (-1), some (-1), some 42, some 42, some 42] ∧
    initDetectState.state ≠ RED ∧
    (runDetect initDetectState (List.replicate 1 (RED, (42 : Int)))).state = RED ∧
    (runDetect initDetectState (List.replicate 1 (RED, (42 : Int)))).state_count = 1 ∧
    (runDetect initDetectState (List.replicate 2 (RED, (42 : Int)))).state_count = 2 ∧
    (runDetect initDetectState (List.replicate 3 (RED, (42 : Int)))).state_count = 3 ∧
    (runDetect initDetectState (List.replicate 5 (RED, (42 : Int)))).state = RED ∧
    3 ≤ (runDetect initDetectState (List.replicate 5 (RED, (42 : Int)))).state_count ∧
    ∀ s wp raw, (debounce_step s wp raw).1.state_count =
      (debounce_branch s wp raw).1.state_count + 1 := by
  refine ⟨by decide, by decide, by decide, by decide, by decide, by decide,
    by decide, by decide, fun s wp raw => rfl⟩

/-- One debounce step preserves the red-publish invariant and only publishes
a non-negative value while the confirmed color is `RED`. -/
theorem debounce_step_red_inv (s : DetectState) (wp : Int) (raw : Nat)
    (h1 : 0 ≤ s.last_wp → s.last_state = RED)
    (h2 : s.last_state ≠ RED → s.last_wp = -1) :
    ((0 ≤ (debounce_step s wp raw).1.last_wp →
        (debounce_step s wp raw).1.last_state = RED) ∧
      ((debounce_step s wp raw).1.last_state ≠ RED →
        (debounce_step s wp raw).1.last_wp = -1)) ∧
    ∀ v, (debounce_step s wp raw).2 = some v →
      (0 ≤ v → (debounce_step s wp raw).1.last_state = RED) ∧
      ((debounce_step s wp raw).1.last_state ≠ RED → v = -1) := by
  by_cases h : s.state = raw
  · by_cases h3 : 3 ≤ s.state_count
    · rw [debounce_step_stable s wp raw h h3]
      by_cases hred : raw = RED
      · simp [hred, h]
      · simp only [hred, if_false, h]
        refine ⟨⟨fun hc => absurd hc (by omega), fun _ => trivial⟩, fun v hv => ?_⟩
        have hv' : v = -1 := (Option.some.inj hv).symm
        exact ⟨fun hc => absurd (hv' ▸ hc) (by omega), fun _ => hv'⟩
    · rw [debounce_step_hold s wp raw h (by omega)]
      exact ⟨⟨h1, h2⟩, fun v hv => by
        have hv' : v = s.last_wp := (Option.some.inj hv).symm
        exact ⟨fun hge => h1 (hv' ▸ hge), fun hc => hv' ▸ h2 hc⟩⟩
  · rw [debounce_step_change s wp raw h]
    exact ⟨⟨h1, h2⟩, fun v hv => by simp at hv⟩

/-- The red-publish invariant holds in every state reachable from the fresh
one. -/
theorem runDetect_red_inv (rs : List (Nat × Int)) :
    ∀ s : DetectState, (0 ≤ s.last_wp → s.last_state = RED) →
      (s.last_state ≠ RED → s.last_wp = -1) →
      (0 ≤ (runDetect s rs).last_wp → (runDetect s rs).last_state = RED) ∧
      ((runDetect s rs).last_state ≠ RED → (runDetect s rs).last_wp = -1) := by
  induction rs with
  | nil => exact fun s h1 h2 => ⟨h1, h2⟩
  | cons f fs ih =>
    intro s h1 h2
    have hstep := (debounce_step_red_inv s f.2 f.1 h1 h2).1
    exact ih _ hstep.1 hstep.2

/-- C4: in every state reachable by the Debounce Engine from the fresh state,
`last_wp` is non-negative only while the confirmed color `last_state` is
`RED`, and when the confirmed color is not `RED` the stored/published value is
the sentinel `-1`; moreover any value published by a further frame is
non-negative only if the confirmed color (after that frame) is `RED`, and is
`-1` whenever that confirmed color is not `RED`. -/
theorem C4_nonneg_only_when_red :
    ∀ rs : List (Nat × Int), ∀ raw : Nat, ∀ wp : Int,
      ((0 ≤ (runDetect initDetectState rs).last_wp →
          (runDetect initDetectState rs).last_state = RED) ∧
        ((runDetect initDetectState rs).last_state ≠ RED →
          (runDetect initDetectState rs).last_wp = -1)) ∧
      ∀ v, (debounce_step (runDetect initDetectState rs) wp raw).2 = some v →
        (0 ≤ v →
          (debounce_step (runDetect initDetectState rs) wp raw).1.last_state = RED) ∧
        ((debounce_step (runDetect initDetectState rs) wp raw).1.last_state ≠ RED →
          v = -1) := by
  intro rs raw wp
  have hinv := runDetect_red_inv rs initDetectState
    (by intro hc; exact absurd hc (by decide)) (by intro _; rfl)
  exact ⟨hinv, (debounce_step_red_inv _ wp raw hinv.1 hinv.2).2⟩

/-- Witness for C4: after four `RED` frames with waypoint 42 the stored
published value is `42 ≥ 0` and the confirmed color is indeed `RED`; the next
frame publishes `42` with confirmed color `RED`. -/
theorem C4_nonneg_only_when_red_witness :
    (0 : Int) ≤ (runDetect initDetectState
        [(RED, 42), (RED, 42), (RED, 42), (RED, 42)]).last_wp ∧
    (runDetect initDetectState
        [(RED, 42), (RED, 42), (RED, 42), (RED, 42)]).last_state = RED ∧
    (debounce_step (runDetect initDetectState
        [(RED, 42), (RED, 42), (RED, 42), (RED, 42)]) 42 RED).2 = some 42 ∧
    (debounce_step (runDetect initDetectState
        [(RED, 42), (RED, 42), (RED, 42), (RED, 42)]) 42 RED).1.last_state = RED := by
  refine ⟨by decide, ?_, by decide, ?_⟩
  · exact (C4_nonneg_only_when_red
      [(RED, 42), (RED, 42), (RED, 42), (RED, 42)] RED 42).1.1 (by decide)
  · exact ((C4_nonneg_only_when_red
      [(RED, 42), (RED, 42), (RED, 42), (RED, 42)] RED 42).2 42 (by decide)).1
      (by decide)

/-- While branch 2 has not yet fired and `last_wp` is still `-1`, every
emitted value is `-1`. -/
theorem runOuts_all_sentinel (rs : List (Nat × Int)) :
    ∀ s : DetectState, s.last_wp = -1 → anyBranch2 s rs = false →
      ((runOuts s rs).filterMap id).all (fun v => v == -1) = true := by
  induction rs with
  | nil => intro s _ _; rfl
  | cons f fs ih =>
    intro s hwp hany
    rw [anyBranch2, Bool.or_eq_false_iff] at hany
    obtain ⟨hfire, hrest⟩ := hany
    by_cases h : s.state = f.1
    · have h3 : ¬ 3 ≤ s.state_count := by
        intro h3
        rw [branch2Fires] at hfire
        simp [h, STATE_COUNT_THRESHOLD, h3] at hfire
      rw [runOuts, debounce_step_hold s f.2 f.1 h (by omega)]
      simp only [List.filterMap_cons, id, List.all_cons, Bool.and_eq_true]
      refine ⟨by simp [hwp], ?_⟩
      rw [debounce_step_hold s f.2 f.1 h (by omega)] at hrest
      exact ih _ hwp hrest
    · rw [runOuts, debounce_step_change s f.2 f.1 h]
      simp only [List.filterMap_cons, id]
      rw [debounce_step_change s f.2 f.1 h] at hrest
      exact ih _ hwp hrest

/-- C10: `last_wp` starts at `-1`, and until the first frame on which branch 2
fires every value emitted on the output channel is the initial sentinel `-1`
(branch 1 publishes nothing, branch 3 republishes `last_wp` unchanged). -/
theorem C10_sentinel_until_first_confirm :
    initDetectState.last_wp = -1 ∧
    ∀ rs : List (Nat × Int), anyBranch2 initDetectState rs = false →
      ((runOuts initDetectState rs).filterMap id).all (fun v => v == -1) = true := by
  exact ⟨rfl, fun rs h => runOuts_all_sentinel rs initDetectState rfl h⟩

/-- Witness for C10: on two `RED` frames branch 2 never fires, one value is
emitted, and every emitted value is `-1`. -/
theorem C10_sentinel_until_first_confirm_witness :
    anyBranch2 initDetectState [(RED, 42), (RED, 42)] = false ∧
    (runOuts initDetectState [(RED, 42), (RED, 42)]).filterMap id = [-1] ∧
    ((runOuts initDetectState [(RED, 42), (RED, 42)]).filterMap id).all
      (fun v => v == -1) = true := by
  refine ⟨by decide, by decide, ?_⟩
  exact C10_sentinel_until_first_confirm.2 [(RED, 42), (RED, 42)] (by decide)

/-- C7: the claim says a classifier exception is turned into the "unknown"
color.  In the code the `try/except` around `process_traffic_lights`
(lines 99-103) is commented out, so the classifier's exception escapes the
frame handler and the debounce engine receives nothing at all; the same frame
with a functioning classifier completes normally.  This theorem evaluates the
code at the failing input (a qualifying light and a raising classifier). -/
theorem C7_classifier_fault_escapes :
    (image_cb { initState false [⟨50, 0⟩] 0 with
        waypoints := some [⟨0, 0⟩, ⟨50, 0⟩], got_waypoints := true,
        pose := some ⟨0, 0, 1, 0⟩, lights := [⟨50, 0⟩] } 1
      (.error ())).2.2 = some .classifierError ∧
    (image_cb { initState false [⟨50, 0⟩] 0 with
        waypoints := some [⟨0, 0⟩, ⟨50, 0⟩], got_waypoints := true,
        pose := some ⟨0, 0, 1, 0⟩, lights := [⟨50, 0⟩] } 1
      (.error ())).2.1 = none ∧
    (image_cb { initState false [⟨50, 0⟩] 0 with
        waypoints := some [⟨0, 0⟩, ⟨50, 0⟩], got_waypoints := true,
        pose := some ⟨0, 0, 1, 0⟩, lights := [⟨50, 0⟩] } 1
      (.ok GREEN)).2.2 = none := by
  refine ⟨?_, ?_, ?_⟩ <;>
    norm_num [image_cb, initState, process_traffic_lights, findLight,
      lightQualifies, nearestStopLine, closestIdx, closestScan, debounce_step,
      debounce_branch, initDetectState, RED, GREEN, UNKNOWN]

/-- Counterexample for C5: the claim promises an in-range index for every
path with at least one waypoint and every query point, but a query point
farther than `1e6` from the single waypoint on the x-axis leaves the loop
variable `ind` unassigned, and `return ind` raises `UnboundLocalError`
instead of returning an index. -/
theorem C5_far_query_counterexample :
    get_closest_waypoint (some [⟨0, 0⟩]) ⟨2000000, 0⟩ = .unboundLocal := by
  norm_num [get_closest_waypoint, closestIdx, closestScan]

/-- C5 (amended): `get_closest_waypoint` returns an in-range index for every
stored path and query point such that some waypoint is within `1e6` of the
query on both axes (the candidate-update rule with both-axis simultaneous
improvement starting from `1e6`); with no stored path it returns the "no
path" result. -/
theorem C5_nearest_in_range :
    ∀ (wps : List Point) (pose : Point),
      ((∃ w ∈ wps, |pose.x - w.x| < 10 ^ 6 ∧ |pose.y - w.y| < 10 ^ 6) →
        ∃ j, j < wps.length ∧
          get_closest_waypoint (some wps) pose = .index j) ∧
      get_closest_waypoint none pose = .noPath := by
  intro wps pose
  refine ⟨?_, rfl⟩
  intro hex
  have hne : closestIdx wps pose ≠ none :=
    closestScan_hit wps pose 0 (10 ^ 6) (10 ^ 6) none (le_refl _) (le_refl _)
      (fun _ => ⟨rfl, rfl⟩) hex
  cases hj : closestIdx wps pose with
  | none => exact absurd hj hne
  | some j =>
    have hlt := closestScan_lt wps pose 0 (10 ^ 6) (10 ^ 6) none j
      (fun k hk => Option.noConfusion hk) hj
    refine ⟨j, by simpa using hlt, ?_⟩
    rw [get_closest_waypoint, hj]

/-- Witness for C5 (amended): with path `[(0,0)]` and query `(1,1)` the
waypoint is within `1e6` on both axes and an in-range index is returned. -/
theorem C5_nearest_in_range_witness :
    (∃ w ∈ [(⟨0, 0⟩ : Point)], |(1 : ℚ) - w.x| < 10 ^ 6 ∧ |(1 : ℚ) - w.y| < 10 ^ 6) ∧
    ∃ j, j < [(⟨0, 0⟩ : Point)].length ∧
      get_closest_waypoint (some [⟨0, 0⟩]) ⟨1, 1⟩ = .index j := by
  constructor
  · exact ⟨⟨0, 0⟩, by simp, by norm_num, by norm_num⟩
  · exact (C5_nearest_in_range [⟨0, 0⟩] ⟨1, 1⟩).1
      ⟨⟨0, 0⟩, by simp, by norm_num, by norm_num⟩

/-- Counterexample for C6: the claim accepts a frame once at least 0.1 time
units have elapsed, but the code requires strictly more
(`now_time > last_image_time + 0.1`): a frame arriving exactly 0.1 after the
last accepted one satisfies the claim's condition yet is silently dropped
(state unchanged, nothing published, no fault). -/
theorem C6_boundary_counterexample :
    spec_accepts (initState false [] 0) (1 / 10) ∧
    image_cb (initState false [] 0) (1 / 10) (.ok RED) =
      (initState false [] 0, none, none) := by
  constructor
  · constructor
    · rfl
    · norm_num [initState]
  · norm_num [image_cb, initState]

/-- C6 (amended): a frame is processed only if the busy flag is false and
strictly more than 0.1 time units have elapsed since the last accepted frame;
otherwise it is silently dropped (state unchanged, nothing published, no
fault).  On acceptance `last_image_time` is set to the arrival time, the
image is recorded, and the busy flag is left untouched (the source never
writes it). -/
theorem C6_rate_limit :
    ∀ (s : TLState) (now : ℚ) (c : Except Unit Nat),
      (¬(s.processing_image = false ∧ s.last_image_time + 1 / 10 < now) →
        image_cb s now c = (s, none, none)) ∧
      ((s.processing_image = false ∧ s.last_image_time + 1 / 10 < now) →
        (image_cb s now c).1.last_image_time = now ∧
        (image_cb s now c).1.processing_image = s.processing_image ∧
        (image_cb s now c).1.has_image = true) := by
  intro s now c
  constructor
  · intro h
    rw [image_cb, if_neg h]
  · intro h
    rw [image_cb, if_pos h]
    dsimp only
    cases hp : process_traffic_lights s.site s.stop_line_positions s.waypoints
        s.pose s.lights c with
    | error e => exact ⟨rfl, rfl, rfl⟩
    | ok o =>
      cases o with
      | none => exact ⟨rfl, rfl, rfl⟩
      | some pr => exact ⟨rfl, rfl, rfl⟩

/-- Witness for C6 (amended): a frame at time 1 against the fresh state
(initial time 0) is accepted, records the arrival time and the image, and
leaves the busy flag untouched. -/
theorem C6_rate_limit_witness :
    ((initState false [] 0).processing_image = false ∧
      (initState false [] 0).last_image_time + 1 / 10 < 1) ∧
    (image_cb (initState false [] 0) 1 (.ok RED)).1.last_image_time = 1 ∧
    (image_cb (initState false [] 0) 1 (.ok RED)).1.processing_image =
      (initState false [] 0).processing_image ∧
    (image_cb (initState false [] 0) 1 (.ok RED)).1.has_image = true := by
  have h : (initState false [] 0).processing_image = false ∧
      (initState false [] 0).last_image_time + 1 / 10 < 1 :=
    ⟨rfl, by norm_num [initState]⟩
  exact ⟨h, (C6_rate_limit (initState false [] 0) 1 (.ok RED)).2 h⟩

/-- Counterexample for C8: the claim uses the closed interval `[25, 100]`,
but the code tests strict inequalities: a light at distance exactly 100
(directional product 100 > 1) qualifies under the claim yet the selector
reports "no light found" `(-1, UNKNOWN)`. -/
theorem C8_boundary_counterexample :
    lightQualifiesClosed ⟨0, 0, 1, 0⟩ ⟨100, 0⟩ = true ∧
    lightQualifies ⟨0, 0, 1, 0⟩ ⟨100, 0⟩ = false ∧
    process_traffic_lights false [⟨50, 0⟩] (some [⟨0, 0⟩, ⟨50, 0⟩])
      (some ⟨0, 0, 1, 0⟩) [⟨100, 0⟩] (.ok RED) = .ok (some (-1, UNKNOWN)) := by
  refine ⟨?_, ?_, ?_⟩ <;>
    norm_num [lightQualifiesClosed, lightQualifies, process_traffic_lights,
      findLight]

/-- C8 (amended): in non-site mode the light scan honors received order and
selects the first light with Euclidean distance strictly inside `(25, 100)`
and directional product `car_orient * light_orient > 1`; every light at
distance exactly 150 fails the test regardless of heading; and when no light
qualifies the result is `(-1, UNKNOWN)` ("no light found"). -/
theorem C8_first_qualifying_light :
    ∀ (p : CarPose) (lights : List Point) (l : Point)
      (stop_lines wps : List Point) (c : Except Unit Nat),
      (findLight p lights = some l →
        lightQualifies p l = true ∧
        ∃ pre post, lights = pre ++ l :: post ∧
          ∀ q ∈ pre, lightQualifies p q = false) ∧
      (∀ q : Point, (q.x - p.x) ^ 2 + (q.y - p.y) ^ 2 = 150 ^ 2 →
        lightQualifies p q = false) ∧
      (findLight p lights = none →
        process_traffic_lights false stop_lines (some wps) (some p) lights c =
          .ok (some (-1, UNKNOWN))) := by
  intro p lights l stop_lines wps c
  refine ⟨findLight_first p lights l, ?_, ?_⟩
  · intro q hd
    have h1 : ¬((q.x - p.x) ^ 2 + (q.y - p.y) ^ 2 < 100 ^ 2) := by
      rw [hd]; norm_num
    simp only [lightQualifies]
    simp [h1]
  · intro h
    simp [process_traffic_lights, h]

/-- Witness for C8 (amended): with the car at the origin heading along
`(1, 0)`, the registry `[(300, 300), (50, 0)]` selects the second light: the
first is out of range and the light at `(50, 0)` is the first qualifying
one. -/
theorem C8_first_qualifying_light_witness :
    findLight ⟨0, 0, 1, 0⟩ [⟨300, 300⟩, ⟨50, 0⟩] = some ⟨50, 0⟩ ∧
    lightQualifies ⟨0, 0, 1, 0⟩ ⟨50, 0⟩ = true ∧
    ∃ pre post, [(⟨300, 300⟩ : Point), ⟨50, 0⟩] = pre ++ ⟨50, 0⟩ :: post ∧
      ∀ q ∈ pre, lightQualifies ⟨0, 0, 1, 0⟩ q = false := by
  have hfind : findLight ⟨0, 0, 1, 0⟩ [⟨300, 300⟩, ⟨50, 0⟩] = some ⟨50, 0⟩ := by
    norm_num [findLight, lightQualifies]
  have := (C8_first_qualifying_light ⟨0, 0, 1, 0⟩ [⟨300, 300⟩, ⟨50, 0⟩]
    ⟨50, 0⟩ [] [] (.ok RED)).1 hfind
  exact ⟨hfind, this.1, this.2⟩

/-- C9: the pipeline is deterministic — replaying an identical message
sequence (poses, paths, light snapshots, frames with their arrival times and
classifier outcomes) against a freshly initialized node yields the identical
sequence of published values (and of per-message outcomes). -/
theorem C9_replay_deterministic :
    ∀ (site : Bool) (stop_lines : List Point) (t0 : ℚ) (ms1 ms2 : List Msg),
      ms1 = ms2 →
      published (initState site stop_lines t0) ms1 =
        published (initState site stop_lines t0) ms2 ∧
      runMsgs (initState site stop_lines t0) ms1 =
        runMsgs (initState site stop_lines t0) ms2 := by
  intro site stop_lines t0 ms1 ms2 h
  rw [h]
  exact ⟨rfl, rfl⟩

/-- Witness for C9: two replays of a concrete three-message sequence publish
the same values. -/
theorem C9_replay_deterministic_witness :
    published (initState false [⟨50, 0⟩] 0)
        [Msg.waypointsMsg [⟨0, 0⟩], Msg.poseMsg ⟨0, 0, 1, 0⟩,
          Msg.imageMsg 1 (.ok RED)] =
      published (initState false [⟨50, 0⟩] 0)
        [Msg.waypointsMsg [⟨0, 0⟩], Msg.poseMsg ⟨0, 0, 1, 0⟩,
          Msg.imageMsg 1 (.ok RED)] :=
  (C9_replay_deterministic false [⟨50, 0⟩] 0 _ _ rfl).1

end TLDetector
